import Mathlib

/-!
# Motion-detection core of the Mobiledevice-security repository

Shallow embedding of the motion-detection routines of `src/app.js`
(class `MotionSecurityCamera`) and `src/intro.js` (class
`SecurityCameraApp`), together with the configuration handlers and the
enable/disable toggle, and proofs of the specification claims about them.

JavaScript numbers are modelled as exact rationals (`ℚ`); all quantities
involved (pixel bytes, thresholds such as `(100 - sensitivity) * 2.55`,
percentages) are small exact values, and the claims' comparisons are away
from representation boundaries.  Timestamps (`Date.now()`) are rationals
as well.  An `ImageData` pixel is four byte channels; a frame is the list
of its pixels in order (the flat `data` array grouped in fours).
-/

namespace MotionCamera

/-- One RGBA pixel of an `ImageData` buffer (channels are bytes, 0–255). -/
structure Pixel where
  r : Nat
  g : Nat
  b : Nat
  a : Nat
  deriving DecidableEq, Repr

/-- A captured frame: the pixels of the `ImageData.data` array in order. -/
abbrev Frame := List Pixel

/-- All channels of a pixel are in the byte range, as `getImageData` yields. -/
def Pixel.valid (p : Pixel) : Prop :=
  p.r ≤ 255 ∧ p.g ≤ 255 ∧ p.b ≤ 255

instance (p : Pixel) : Decidable p.valid := by
  unfold Pixel.valid; infer_instance

/-- Every pixel of the frame is byte-ranged. -/
def Frame.valid (f : Frame) : Prop := ∀ p ∈ f, p.valid

instance (f : Frame) : Decidable f.valid := by
  unfold Frame.valid; exact List.decidableBAll _ f

/-- `Math.abs(x - y)` on two byte channels. -/
def chDiff (x y : Nat) : Nat := max x y - min x y

/-- `app.js` line 303: `const totalDiff = (rDiff + gDiff + bDiff) / 3`.
The channel differences of the current pixel `c` against the stored pixel
`p`, averaged over the three colour channels. -/
def avgDiff (c p : Pixel) : ℚ :=
  ((chDiff c.r p.r + chDiff c.g p.g + chDiff c.b p.b : Nat) : ℚ) / 3

/-- `app.js` line 294: `const threshold = (100 - this.sensitivity) * 2.55`. -/
def pixelThreshold (sensitivity : ℚ) : ℚ := (100 - sensitivity) * 2.55

/-- `app.js` line 305: the changed-pixel test `totalDiff > threshold`. -/
def pixelChanged (t : ℚ) (c p : Pixel) : Bool := decide (avgDiff c p > t)

/-- `app.js` lines 307–311: a changed pixel is recoloured to pure red
(`data[i] = 255; data[i+1] = 0; data[i+2] = 0`), alpha untouched. -/
def redOf (c : Pixel) : Pixel := ⟨255, 0, 0, c.a⟩

/-- The pixel loop shared by `app.js` lines 298–312 and `intro.js` lines
343–357, abstracted over the changed-pixel test.  It walks the current
frame paired with the stored frame, counting changed pixels and
recolouring them in place; each pixel's reads happen before its own write,
and writes never touch later loop indices, so a single pass over the pairs
models the mutation faithfully.  Returns the changed-pixel count and the
frame as it stands after the loop. -/
def pixelLoop (changed : Pixel → Pixel → Bool) :
    List (Pixel × Pixel) → Nat × List Pixel
  | [] => (0, [])
  | (c, p) :: rest =>
      let res := pixelLoop changed rest
      if changed c p then (res.1 + 1, redOf c :: res.2)
      else (res.1, c :: res.2)

/-- The frame left on the canvas after the `app.js` loop: pixels paired with
a stored pixel are recoloured when changed; pixels beyond the stored
frame's length are compared against `undefined` (`NaN` differences, never
above threshold) and stay as they are. -/
def highlightFrame (t : ℚ) (cur prev : Frame) : Frame :=
  (pixelLoop (pixelChanged t) (cur.zip prev)).2 ++ cur.drop prev.length

/-- The changed-pixel count of the `app.js` loop; indices past the stored
frame's length read `undefined` and never count. -/
def changedPixels (t : ℚ) (cur prev : Frame) : Nat :=
  (pixelLoop (pixelChanged t) (cur.zip prev)).1

/-- A motion event as handed to the alerting collaborators: the `Date.now()`
timestamp and the measured motion percentage. -/
structure MotionEvent where
  timestamp : ℚ
  level : ℚ
  deriving DecidableEq, Repr

/-- An entry of `this.alerts` (`app.js` lines 360–367): creation time and
the motion level it records. -/
structure MotionAlert where
  timestamp : ℚ
  motionLevel : ℚ
  deriving DecidableEq, Repr

/-- The detection-relevant fields of `MotionSecurityCamera` (`app.js`
constructor, lines 6–20): the enabled flag, the stored previous frame, the
configuration, the cooldown bookkeeping, the alert list and the number of
motion captures taken so far. -/
structure CameraState where
  motionDetectionActive : Bool
  lastFrame : Option Frame
  sensitivity : ℚ
  lastCaptureTime : ℚ
  cooldownPeriod : ℚ
  motionThreshold : ℚ
  alerts : List MotionAlert
  capturesTaken : Nat
  deriving DecidableEq, Repr

/-- The constructor defaults of `MotionSecurityCamera` (`app.js` lines
6–20). -/
def initialState : CameraState :=
  { motionDetectionActive := false
    lastFrame := none
    sensitivity := 30
    lastCaptureTime := 0
    cooldownPeriod := 5000
    motionThreshold := 2
    alerts := []
    capturesTaken := 0 }

/-- `app.js` lines 333–393, `onMotionDetected(motionLevel)`: if the cooldown
has not elapsed (`now - this.lastCaptureTime < this.cooldownPeriod`) it
returns at once, leaving every field untouched; otherwise it captures an
image, prepends an alert, notifies, and finally sets
`this.lastCaptureTime = now`.  Returns the new state and the emitted event,
if any. -/
def onMotionDetected (s : CameraState) (motionLevel now : ℚ) :
    CameraState × Option MotionEvent :=
  if now - s.lastCaptureTime < s.cooldownPeriod then (s, none)
  else
    ({ s with
        capturesTaken := s.capturesTaken + 1
        alerts := ⟨now, motionLevel⟩ :: s.alerts
        lastCaptureTime := now },
     some ⟨now, motionLevel⟩)

/-- `app.js` lines 280–331, `detectMotion()`, with the current `ImageData`
frame and `Date.now()` passed explicitly.  With no stored frame the current
frame becomes the baseline and no percentage is computed.  Otherwise the
pixel loop runs, the highlighted frame is put back on the canvas, the
motion percentage is `changedPixels / pixelCount * 100` with
`pixelCount = data.length / 4`, the trigger handler runs when the
percentage exceeds `this.motionThreshold`, and line 327 re-reads the canvas
— which now holds the highlighted frame — into `this.lastFrame`.  Returns
the new state, the computed percentage (`none` on a baseline-only cycle)
and the emitted event, if any. -/
def detectMotion (s : CameraState) (current : Frame) (now : ℚ) :
    CameraState × Option ℚ × Option MotionEvent :=
  match s.lastFrame with
  | none => ({ s with lastFrame := some current }, none, none)
  | some prev =>
      let t := pixelThreshold s.sensitivity
      let pixelCount := current.length
      let changed := changedPixels t current prev
      let motionPercentage := (changed : ℚ) / (pixelCount : ℚ) * 100
      let step :=
        if motionPercentage > s.motionThreshold then
          onMotionDetected s motionPercentage now
        else (s, none)
      ({ step.1 with lastFrame := some (highlightFrame t current prev) },
       some motionPercentage, step.2)

/-- `app.js` lines 271–277: one tick of the 100 ms interval.  `detectMotion`
runs only when detection is active and the video has enough data (the same
readiness is re-checked at line 285); otherwise nothing happens. -/
def tick (s : CameraState) (frameReady : Bool) (frame : Frame) (now : ℚ) :
    CameraState × Option ℚ × Option MotionEvent :=
  if s.motionDetectionActive && frameReady then detectMotion s frame now
  else (s, none, none)

/-- One observed interval tick: readiness of the video, the frame the canvas
would capture, and the wall-clock time of the tick. -/
structure TickInput where
  ready : Bool
  frame : Frame
  now : ℚ
  deriving Repr

/-- Runs a sequence of interval ticks from a state, collecting the emitted
motion events in order. -/
def runTicks (s : CameraState) : List TickInput → CameraState × List MotionEvent
  | [] => (s, [])
  | i :: rest =>
      let step := tick s i.ready i.frame i.now
      let res := runTicks step.1 rest
      (res.1, step.2.2.toList ++ res.2)

/-- `app.js` lines 601–660, `toggleMotionDetection()`: flips
`this.motionDetectionActive`; on the branch that turned detection off,
line 655 clears `this.lastFrame`.  The DOM lookups in between (the toggle
button, status label and canvas, declared in the repository's HTML page)
only restyle the UI and are elided. -/
def toggleMotionDetection (s : CameraState) : CameraState :=
  let s' := { s with motionDetectionActive := !s.motionDetectionActive }
  if s'.motionDetectionActive then s'
  else { s' with lastFrame := none }

/-- Modelled from the spec: the sensitivity control is a range-slider
element declared in the repository's HTML page, which is not under `src/`;
per the spec, configuration performs "no validation beyond clamping
sensitivity to [0,100]", the range input's confinement of its value to its
bounds. -/
def rangeClamp (v : ℚ) : ℚ := max 0 (min 100 v)

/-- `app.js` lines 525–531: the sensitivity slider's input handler assigns
the slider's (clamped) value directly: `this.sensitivity = e.target.value`;
the handler itself adds no validation. -/
def onSensitivityInput (s : CameraState) (v : ℚ) : CameraState :=
  { s with sensitivity := rangeClamp v }

/-- `app.js` lines 534–541: the capture-delay slider's input handler sets
`this.cooldownPeriod = e.target.value * 1000`, with no validation of the
value. -/
def onCaptureDelayInput (s : CameraState) (v : ℚ) : CameraState :=
  { s with cooldownPeriod := v * 1000 }

/-- `app.js` lines 1125–1151, `saveSettings()`, restricted to the detector
fields: `this.motionThreshold = parseFloat(settings.motionThreshold)` and
`this.cooldownPeriod = parseInt(settings.cooldownPeriod) * 1000`, the
parsed form-field numbers applied with no validation. -/
def applySettings (s : CameraState) (threshold : ℚ) (cooldownSeconds : ℤ) :
    CameraState :=
  { s with
      motionThreshold := threshold
      cooldownPeriod := (cooldownSeconds : ℚ) * 1000 }

/-! ## The `intro.js` variant (`SecurityCameraApp.detectMotion`) -/

/-- `intro.js` line 348: `const totalDiff = rDiff + gDiff + bDiff` — the
unweighted channel-difference sum, with no division by 3. -/
def sumDiff (c p : Pixel) : ℚ :=
  ((chDiff c.r p.r + chDiff c.g p.g + chDiff c.b p.b : Nat) : ℚ)

/-- `intro.js` line 350: the changed-pixel test `totalDiff > threshold`,
against the same threshold formula `(100 - sensitivity) * 2.55`. -/
def introChanged (t : ℚ) (c p : Pixel) : Bool := decide (sumDiff c p > t)

/-- `intro.js` lines 329–369, `detectMotion()` with a stored frame, with the
current frame, the canvas dimensions and the stored frame passed
explicitly.  The loop counts and recolours as in `app.js` but with the
unweighted sum; the percentage divides by `canvas.width * canvas.height`
(line 361); the trigger compares against the hardcoded `0.5` (line 363);
and line 368 stores the mutated `currentFrame` object — the recoloured
frame — as `this.lastFrame`.  Returns the percentage, the stored frame and
the trigger decision. -/
def introDetect (sensitivity : ℚ) (prev cur : Frame) (w h : Nat) :
    ℚ × Frame × Bool :=
  let t := pixelThreshold sensitivity
  let res := pixelLoop (introChanged t) (cur.zip prev)
  let motionPercentage := (res.1 : ℚ) / ((w * h : Nat) : ℚ) * 100
  (motionPercentage, res.2 ++ cur.drop prev.length,
   decide (motionPercentage > 0.5))

/-! ## The recolouring-free variant

`detectMotionNR` is `app.js`'s `detectMotion` with the three recolouring
writes of lines 308–310 removed: the count is unchanged, and line 327 then
reads back the unmodified current frame as the new baseline. -/

/-- `detectMotion` with the recolouring writes removed. -/
def detectMotionNR (s : CameraState) (current : Frame) (now : ℚ) :
    CameraState × Option ℚ × Option MotionEvent :=
  match s.lastFrame with
  | none => ({ s with lastFrame := some current }, none, none)
  | some prev =>
      let t := pixelThreshold s.sensitivity
      let pixelCount := current.length
      let changed := changedPixels t current prev
      let motionPercentage := (changed : ℚ) / (pixelCount : ℚ) * 100
      let step :=
        if motionPercentage > s.motionThreshold then
          onMotionDetected s motionPercentage now
        else (s, none)
      ({ step.1 with lastFrame := some current },
       some motionPercentage, step.2)

/-- The interval tick driving the recolouring-free variant. -/
def tickNR (s : CameraState) (frameReady : Bool) (frame : Frame) (now : ℚ) :
    CameraState × Option ℚ × Option MotionEvent :=
  if s.motionDetectionActive && frameReady then detectMotionNR s frame now
  else (s, none, none)

/-- Runs interval ticks of the recolouring-free variant, collecting the
emitted motion events in order. -/
def runTicksNR (s : CameraState) :
    List TickInput → CameraState × List MotionEvent
  | [] => (s, [])
  | i :: rest =>
      let step := tickNR s i.ready i.frame i.now
      let res := runTicksNR step.1 rest
      (res.1, step.2.2.toList ++ res.2)

/-! ## Closed forms of the pixel loop -/

/-- The loop's changed count is the number of pixel pairs passing the
changed test. -/
theorem pixelLoop_count (changed : Pixel → Pixel → Bool)
    (l : List (Pixel × Pixel)) :
    (pixelLoop changed l).1 = l.countP (fun cp => changed cp.1 cp.2) := by
  induction l with
  | nil => rfl
  | cons cp rest ih =>
      obtain ⟨c, p⟩ := cp
      simp only [pixelLoop, List.countP_cons]
      by_cases h : changed c p = true
      · simp [h, ih]
      · simp [h, ih]

/-- The loop leaves each pixel either recoloured red (when changed) or
untouched. -/
theorem pixelLoop_frame (changed : Pixel → Pixel → Bool)
    (l : List (Pixel × Pixel)) :
    (pixelLoop changed l).2 =
      l.map (fun cp => if changed cp.1 cp.2 then redOf cp.1 else cp.1) := by
  induction l with
  | nil => rfl
  | cons cp rest ih =>
      obtain ⟨c, p⟩ := cp
      simp only [pixelLoop, List.map_cons]
      by_cases h : changed c p = true
      · simp [h, ih]
      · simp [h, ih]

/-! ## General helper lemmas -/

/-- Zipping a list with itself pairs each element with itself. -/
theorem zip_self {α : Type} (l : List α) : l.zip l = l.map (fun x => (x, x)) := by
  induction l with
  | nil => rfl
  | cons x xs ih => simp [List.zip_cons_cons, ih]

/-- Projecting the first components of a zip and restoring the tail yields
the original list. -/
theorem map_fst_zip_append_drop {α β : Type} (l : List α) (l' : List β) :
    (l.zip l').map Prod.fst ++ l.drop l'.length = l := by
  induction l generalizing l' with
  | nil => simp
  | cons x xs ih =>
      cases l' with
      | nil => simp
      | cons y ys => simp [List.zip_cons_cons, ih]

/-- A channel difference of byte values is at most 255. -/
theorem chDiff_le_255 {x y : Nat} (hx : x ≤ 255) (hy : y ≤ 255) :
    chDiff x y ≤ 255 := by
  unfold chDiff
  omega

/-- A channel difference vanishes exactly on equal channels. -/
theorem chDiff_eq_zero_iff (x y : Nat) : chDiff x y = 0 ↔ x = y := by
  unfold chDiff
  omega

/-- The averaged difference of byte-ranged pixels is at most 255. -/
theorem avgDiff_le_255 {c p : Pixel} (hc : c.valid) (hp : p.valid) :
    avgDiff c p ≤ 255 := by
  obtain ⟨hc1, hc2, hc3⟩ := hc
  obtain ⟨hp1, hp2, hp3⟩ := hp
  have h1 := chDiff_le_255 hc1 hp1
  have h2 := chDiff_le_255 hc2 hp2
  have h3 := chDiff_le_255 hc3 hp3
  unfold avgDiff
  rw [div_le_iff₀ (by norm_num : (0:ℚ) < 3)]
  have : ((chDiff c.r p.r + chDiff c.g p.g + chDiff c.b p.b : Nat) : ℚ) ≤ 765 := by
    exact_mod_cast by omega
  linarith

/-! ## Cooldown bookkeeping along a trace -/

/-- How a tick that emits no event treats the cooldown bookkeeping: the last
trigger time and the cooldown duration are untouched. -/
theorem tick_event_none (s : CameraState) (r : Bool) (f : Frame) (now : ℚ)
    (h : (tick s r f now).2.2 = none) :
    (tick s r f now).1.lastCaptureTime = s.lastCaptureTime ∧
    (tick s r f now).1.cooldownPeriod = s.cooldownPeriod := by
  unfold tick detectMotion onMotionDetected at *
  by_cases hb : (s.motionDetectionActive && r) = true
  · simp only [hb, if_true] at h ⊢
    cases hF : s.lastFrame with
    | none => simp [hF]
    | some prev =>
        simp only [hF] at h ⊢
        by_cases hp :
            (changedPixels (pixelThreshold s.sensitivity) f prev : ℚ) /
              (f.length : ℚ) * 100 > s.motionThreshold
        · simp only [hp, if_true] at h ⊢
          by_cases hc : now - s.lastCaptureTime < s.cooldownPeriod
          · simp [hc]
          · simp [hc] at h
        · simp [hp]
  · simp [hb]

/-- How a tick that emits an event treats the cooldown bookkeeping: the
event is stamped with the tick's time, the cooldown had elapsed since the
last trigger, the last trigger time becomes the tick's time, and the
cooldown duration is untouched. -/
theorem tick_event_some (s : CameraState) (r : Bool) (f : Frame) (now : ℚ)
    (e : MotionEvent) (h : (tick s r f now).2.2 = some e) :
    e.timestamp = now ∧
    s.cooldownPeriod ≤ now - s.lastCaptureTime ∧
    (tick s r f now).1.lastCaptureTime = now ∧
    (tick s r f now).1.cooldownPeriod = s.cooldownPeriod := by
  unfold tick detectMotion onMotionDetected at *
  by_cases hb : (s.motionDetectionActive && r) = true
  · simp only [hb, if_true] at h ⊢
    cases hF : s.lastFrame with
    | none => simp [hF] at h
    | some prev =>
        simp only [hF] at h ⊢
        by_cases hp :
            (changedPixels (pixelThreshold s.sensitivity) f prev : ℚ) /
              (f.length : ℚ) * 100 > s.motionThreshold
        · simp only [hp, if_true] at h ⊢
          by_cases hc : now - s.lastCaptureTime < s.cooldownPeriod
          · simp [hc] at h
          · simp only [hc, if_false] at h ⊢
            obtain rfl := (Option.some.inj h).symm
            exact ⟨rfl, le_of_not_lt hc, trivial, trivial⟩
        · simp [hp] at h
  · simp [hb] at h

/-- The events of a trace, each spaced at least the cooldown after the
reference time of the previous one. -/
def spaced (c : ℚ) : ℚ → List MotionEvent → Prop
  | _, [] => True
  | last, e :: es => c ≤ e.timestamp - last ∧ spaced c e.timestamp es

/-- Along any run of interval ticks, the emitted events are successively
spaced by at least the cooldown, starting from the state's last trigger
time. -/
theorem runTicks_spaced (inputs : List TickInput) :
    ∀ s : CameraState,
      spaced s.cooldownPeriod s.lastCaptureTime (runTicks s inputs).2 := by
  induction inputs with
  | nil => intro s; exact trivial
  | cons i rest ih =>
      intro s
      have key := ih (tick s i.ready i.frame i.now).1
      simp only [runTicks]
      cases hev : (tick s i.ready i.frame i.now).2.2 with
      | none =>
          obtain ⟨h1, h2⟩ := tick_event_none s i.ready i.frame i.now hev
          rw [h1, h2] at key
          simpa [hev] using key
      | some e =>
          obtain ⟨het, hc, h1, h2⟩ := tick_event_some s i.ready i.frame i.now e hev
          rw [h1, h2] at key
          simp only [hev, Option.toList_some, List.singleton_append]
          exact ⟨by rw [het]; linarith, by rw [het]; exact key⟩

/-- Every event of a spaced suffix is at least one cooldown past the
reference time, when the cooldown is nonnegative. -/
theorem spaced_ge {c : ℚ} (hc : 0 ≤ c) :
    ∀ {last : ℚ} {es : List MotionEvent}, spaced c last es →
      ∀ e ∈ es, last + c ≤ e.timestamp := by
  intro last es
  induction es generalizing last with
  | nil => intro _ e he; cases he
  | cons e' es ih =>
      rintro ⟨h1, h2⟩ e he
      rcases List.mem_cons.mp he with rfl | he
      · linarith
      · have := ih h2 e he
        linarith

/-- Spaced events are pairwise separated by at least the cooldown. -/
theorem spaced_pairwise {c : ℚ} (hc : 0 ≤ c) :
    ∀ {last : ℚ} {es : List MotionEvent}, spaced c last es →
      es.Pairwise (fun e e' => c ≤ e'.timestamp - e.timestamp) := by
  intro last es
  induction es generalizing last with
  | nil => intro _; exact List.Pairwise.nil
  | cons e es ih =>
      rintro ⟨h1, h2⟩
      refine List.pairwise_cons.mpr ⟨?_, ih h2⟩
      intro e' he'
      have := spaced_ge hc h2 e' he'
      linarith

/-! ## Concrete test data -/

/-- An all-black RGBA pixel with full alpha. -/
def blackPixel : Pixel := ⟨0, 0, 0, 255⟩

/-- An all-white RGBA pixel with full alpha. -/
def whitePixel : Pixel := ⟨255, 255, 255, 255⟩

/-- A pure-red RGBA pixel with full alpha, the recolouring target. -/
def redPixel : Pixel := ⟨255, 0, 0, 255⟩

/-- A camera state at peak sensitivity with a black one-pixel baseline, the
cooldown bookkeeping cleared far enough back that a first trigger is
possible at time 0. -/
def exampleCooldownState : CameraState :=
  { initialState with
      motionDetectionActive := true
      lastFrame := some [blackPixel]
      sensitivity := 100
      lastCaptureTime := -5000 }

/-- Three qualifying interval ticks at times 0, 3000 and 5001. -/
def exampleCooldownTicks : List TickInput :=
  [⟨true, [whitePixel], 0⟩, ⟨true, [blackPixel], 3000⟩,
   ⟨true, [blackPixel], 5001⟩]

/-- A camera state whose stored baseline equals the frame about to be
processed. -/
def identState : CameraState :=
  { initialState with lastFrame := some [blackPixel] }

/-! ## Claims -/

/-- C7: for every frame supplied to a detection cycle when no previous
frame is stored — as at startup, where the constructor leaves
`this.lastFrame = null` — the frame is stored as the new baseline, no
motion percentage is computed, no event is emitted, and nothing else in
the state changes. -/
theorem claim_C7_first_frame_baseline_only :
    initialState.lastFrame = none ∧
    ∀ (s : CameraState) (cur : Frame) (now : ℚ), s.lastFrame = none →
      detectMotion s cur now = ({ s with lastFrame := some cur }, none, none) := by
  refine ⟨rfl, ?_⟩
  intro s cur now h
  simp [detectMotion, h]

/-- Witness: processing a one-pixel frame from the initial state only
stores the baseline. -/
theorem claim_C7_first_frame_baseline_only_witness :
    detectMotion initialState [blackPixel] 0 =
      ({ initialState with lastFrame := some [blackPixel] }, none, none) :=
  claim_C7_first_frame_baseline_only.2 initialState [blackPixel] 0 rfl

/-- C10: a qualifying detection suppressed by the cooldown check
(`now - lastCaptureTime < cooldownPeriod`) leaves the trigger handler's
state fully unchanged — `lastCaptureTime` keeps the time of the last
emitted event, no alert is appended, no capture is taken — and emits
nothing, so suppressed detections never extend the cooldown window. -/
theorem claim_C10_suppressed_trigger_no_effect :
    ∀ (s : CameraState) (motionLevel now : ℚ),
      now - s.lastCaptureTime < s.cooldownPeriod →
      (onMotionDetected s motionLevel now).1.lastCaptureTime = s.lastCaptureTime ∧
      (onMotionDetected s motionLevel now).1.alerts = s.alerts ∧
      (onMotionDetected s motionLevel now).1.capturesTaken = s.capturesTaken ∧
      onMotionDetected s motionLevel now = (s, none) := by
  intro s motionLevel now h
  simp [onMotionDetected, h]

/-- Witness: at the initial state a detection at time 0 is inside the
5000 ms cooldown window measured from `lastCaptureTime = 0` and changes
nothing. -/
theorem claim_C10_suppressed_trigger_no_effect_witness :
    (0 : ℚ) - initialState.lastCaptureTime < initialState.cooldownPeriod ∧
    onMotionDetected initialState 50 0 = (initialState, none) :=
  ⟨by norm_num [initialState],
   (claim_C10_suppressed_trigger_no_effect initialState 50 0
      (by norm_num [initialState])).2.2.2⟩

/-- C8: toggling detection from enabled to disabled clears the stored
previous frame; after disabling and re-enabling, the first detection
cycle — whatever its frame — computes no percentage and emits no event. -/
theorem claim_C8_disable_clears_previous_frame :
    ∀ s : CameraState, s.motionDetectionActive = true →
      (toggleMotionDetection s).motionDetectionActive = false ∧
      (toggleMotionDetection s).lastFrame = none ∧
      (toggleMotionDetection (toggleMotionDetection s)).motionDetectionActive = true ∧
      ∀ (r : Bool) (f : Frame) (now : ℚ),
        (tick (toggleMotionDetection (toggleMotionDetection s)) r f now).2.1 = none ∧
        (tick (toggleMotionDetection (toggleMotionDetection s)) r f now).2.2 = none := by
  intro s h
  have h1 : toggleMotionDetection s =
      { s with motionDetectionActive := false, lastFrame := none } := by
    simp [toggleMotionDetection, h]
  have h2 : toggleMotionDetection (toggleMotionDetection s) =
      { s with motionDetectionActive := true, lastFrame := none } := by
    rw [h1]; simp [toggleMotionDetection]
  refine ⟨by rw [h1], by rw [h1], by rw [h2], ?_⟩
  intro r f now
  rw [h2]
  cases r with
  | false => simp [tick]
  | true => simp [tick, detectMotion]

/-- Witness: disabling from an enabled state holding a white-pixel
baseline clears it, and the first cycle after re-enabling stays silent on
a wildly different (black) frame. -/
theorem claim_C8_disable_clears_previous_frame_witness :
    (toggleMotionDetection
      { initialState with
          motionDetectionActive := true
          lastFrame := some [whitePixel] }).lastFrame = none ∧
    (tick (toggleMotionDetection (toggleMotionDetection
      { initialState with
          motionDetectionActive := true
          lastFrame := some [whitePixel] })) true [blackPixel] 9999).2.2 =
      none := by
  have h := claim_C8_disable_clears_previous_frame
    { initialState with
        motionDetectionActive := true
        lastFrame := some [whitePixel] } rfl
  exact ⟨h.2.1, (h.2.2.2 true [blackPixel] 9999).2⟩

/-- C9: the sensitivity reaching the detector through the slider handler
always lies in [0,100] (the range input declared in the page markup clamps
its value; the handler assigns it unmodified), while the capture-delay
handler and the settings form apply cooldown and motion-area threshold
values with no validation at all. -/
theorem claim_C9_sensitivity_clamping_only :
    (∀ (s : CameraState) (v : ℚ),
      0 ≤ (onSensitivityInput s v).sensitivity ∧
      (onSensitivityInput s v).sensitivity ≤ 100) ∧
    (∀ (s : CameraState) (v : ℚ),
      (onCaptureDelayInput s v).cooldownPeriod = v * 1000) ∧
    (∀ (s : CameraState) (th : ℚ) (cd : ℤ),
      (applySettings s th cd).motionThreshold = th ∧
      (applySettings s th cd).cooldownPeriod = (cd : ℚ) * 1000) := by
  refine ⟨?_, ?_, ?_⟩
  · intro s v
    constructor
    · exact le_max_left 0 _
    · exact max_le (by norm_num) (min_le_left 100 v)
  · intro s v
    rfl
  · intro s th cd
    exact ⟨rfl, rfl⟩

/-- A pixel compared with itself has zero averaged difference. -/
theorem avgDiff_self (p : Pixel) : avgDiff p p = 0 := by
  unfold avgDiff
  simp [chDiff]

/-- The per-pixel threshold is nonnegative for sensitivities up to 100. -/
theorem pixelThreshold_nonneg {s : ℚ} (h : s ≤ 100) : 0 ≤ pixelThreshold s := by
  unfold pixelThreshold
  nlinarith

/-- C2: with a stored previous frame of the same size, the detection cycle
reports exactly `changedCount / totalPixelCount * 100`, a pixel counting
as changed exactly when `(|R₁-R₂| + |G₁-G₂| + |B₁-B₂|) / 3` exceeds
`(100 - sensitivity) * 2.55`; for identical consecutive frames (with an
in-range sensitivity and nonnegative area threshold) the reported
percentage is 0 and no event is emitted. -/
theorem claim_C2_motion_percentage_formula :
    ∀ (s : CameraState) (prev cur : Frame) (now : ℚ),
      s.lastFrame = some prev → cur.length = prev.length →
      ((detectMotion s cur now).2.1 =
        some ((((cur.zip prev).countP (fun cp =>
            decide (((chDiff cp.1.r cp.2.r + chDiff cp.1.g cp.2.g +
                chDiff cp.1.b cp.2.b : Nat) : ℚ) / 3 >
              (100 - s.sensitivity) * 2.55)) : Nat) : ℚ) /
          (cur.length : ℚ) * 100)) ∧
      (cur = prev → s.sensitivity ≤ 100 → 0 ≤ s.motionThreshold →
        (detectMotion s cur now).2.1 = some 0 ∧
        (detectMotion s cur now).2.2 = none) := by
  intro s prev cur now hF _hlen
  have hcount : changedPixels (pixelThreshold s.sensitivity) cur prev =
      (cur.zip prev).countP (fun cp =>
        decide (((chDiff cp.1.r cp.2.r + chDiff cp.1.g cp.2.g +
            chDiff cp.1.b cp.2.b : Nat) : ℚ) / 3 >
          (100 - s.sensitivity) * 2.55)) := by
    rw [changedPixels, pixelLoop_count]
    rfl
  constructor
  · simp only [detectMotion, hF]
    rw [hcount]
  · rintro rfl hsens hthr
    have hzero : changedPixels (pixelThreshold s.sensitivity) cur cur = 0 := by
      rw [changedPixels, pixelLoop_count, List.countP_eq_zero]
      intro cp hcp
      have h12 : cp.1 = cp.2 := by
        rw [zip_self] at hcp
        obtain ⟨x, _, rfl⟩ := List.mem_map.mp hcp
        rfl
      simp only [pixelChanged, h12, avgDiff_self, decide_eq_true_eq]
      exact not_lt.mpr (pixelThreshold_nonneg hsens)
    have hpct : (changedPixels (pixelThreshold s.sensitivity) cur cur : ℚ) /
        (cur.length : ℚ) * 100 = 0 := by
      rw [hzero]
      simp
    constructor
    · simp only [detectMotion, hF]
      rw [hpct]
    · simp only [detectMotion, hF]
      rw [hpct]
      simp [not_lt.mpr hthr, onMotionDetected]

/-- Witness: a one-pixel frame processed against an identical stored frame
at the default configuration yields percentage 0 and no event. -/
theorem claim_C2_motion_percentage_formula_witness :
    identState.lastFrame = some [blackPixel] ∧
    (detectMotion identState [blackPixel] 0).2.1 = some 0 ∧
    (detectMotion identState [blackPixel] 0).2.2 = none := by
  have h := (claim_C2_motion_percentage_formula identState [blackPixel]
    [blackPixel] 0 rfl rfl).2 rfl
    (by norm_num [identState, initialState])
    (by norm_num [identState, initialState])
  exact ⟨rfl, h.1, h.2⟩

/-- C1: along any run of detection cycles, emitted events are pairwise
separated by at least the (nonnegative) cooldown, no matter how many
qualifying cycles fall inside the window; no tick emits while detection
is disabled;
a qualifying cycle whose time is at least one cooldown past the last
trigger time emits; and on the concrete 5000 ms-cooldown trace with
qualifying cycles at times 0, 3000 and 5001, exactly the events at 0 and
5001 are emitted. -/
theorem claim_C1_cooldown_rate_limiting :
    (∀ (s : CameraState) (inputs : List TickInput), 0 ≤ s.cooldownPeriod →
      ((runTicks s inputs).2).Pairwise
        (fun e e' => s.cooldownPeriod ≤ e'.timestamp - e.timestamp)) ∧
    (∀ (s : CameraState) (r : Bool) (f : Frame) (now : ℚ),
      s.motionDetectionActive = false → (tick s r f now).2.2 = none) ∧
    (∀ (s : CameraState) (prev f : Frame) (now : ℚ),
      s.lastFrame = some prev → s.motionDetectionActive = true →
      s.motionThreshold <
        (changedPixels (pixelThreshold s.sensitivity) f prev : ℚ) /
          (f.length : ℚ) * 100 →
      s.lastCaptureTime + s.cooldownPeriod ≤ now →
      (tick s true f now).2.2 =
        some ⟨now, (changedPixels (pixelThreshold s.sensitivity) f prev : ℚ) /
          (f.length : ℚ) * 100⟩) ∧
    (runTicks exampleCooldownState exampleCooldownTicks).2 =
      [⟨0, 100⟩, ⟨5001, 100⟩] := by
  refine ⟨?_, ?_, ?_, ?_⟩
  · intro s inputs hc
    exact spaced_pairwise hc (runTicks_spaced inputs s)
  · intro s r f now h
    simp [tick, h]
  · intro s prev f now hF hact hpct hcool
    simp only [tick, hact, Bool.true_and, if_true, detectMotion, hF,
      onMotionDetected]
    rw [if_pos hpct, if_neg (by push_neg; linarith)]
  · norm_num [runTicks, tick, detectMotion, onMotionDetected, changedPixels,
      pixelLoop, pixelChanged, avgDiff, chDiff, pixelThreshold,
      highlightFrame, redOf, exampleCooldownState, exampleCooldownTicks,
      initialState, blackPixel, whitePixel]

/-- Witness: the rate-limit spacing on the concrete trace, a disabled tick
emitting nothing, and a qualifying cycle one cooldown after the last
trigger emitting. -/
theorem claim_C1_cooldown_rate_limiting_witness :
    (0 : ℚ) ≤ exampleCooldownState.cooldownPeriod ∧
    ((runTicks exampleCooldownState exampleCooldownTicks).2).Pairwise
      (fun e e' =>
        exampleCooldownState.cooldownPeriod ≤ e'.timestamp - e.timestamp) ∧
    (tick initialState true [whitePixel] 0).2.2 = none ∧
    (tick exampleCooldownState true [whitePixel] 7000).2.2 =
      some ⟨7000, 100⟩ := by
  refine ⟨by norm_num [exampleCooldownState, initialState],
    claim_C1_cooldown_rate_limiting.1 exampleCooldownState exampleCooldownTicks
      (by norm_num [exampleCooldownState, initialState]),
    claim_C1_cooldown_rate_limiting.2.1 initialState true [whitePixel] 0 rfl,
    ?_⟩
  have h := claim_C1_cooldown_rate_limiting.2.2.1 exampleCooldownState
    [blackPixel] [whitePixel] 7000 rfl rfl
    (by norm_num [exampleCooldownState, initialState, changedPixels,
      pixelLoop, pixelChanged, avgDiff, chDiff, pixelThreshold, blackPixel,
      whitePixel])
    (by norm_num [exampleCooldownState, initialState])
  rw [h]
  norm_num [exampleCooldownState, initialState, changedPixels, pixelLoop,
    pixelChanged, avgDiff, chDiff, pixelThreshold, blackPixel, whitePixel]

/-- A camera state with a black one-pixel baseline at sensitivity 50. -/
def recolorState : CameraState :=
  { initialState with lastFrame := some [blackPixel], sensitivity := 50 }

/-- C4 counterexample: processing a white frame against a black baseline
stores the recoloured (pure-red) frame as the next baseline, not the white
input frame — line 327 of `app.js` re-reads the canvas after the
highlighted frame was put back on it. -/
theorem claim_C4_counterexample_baseline_recoloured :
    (detectMotion recolorState [whitePixel] 0).1.lastFrame = some [redPixel] ∧
    (detectMotion recolorState [whitePixel] 0).1.lastFrame ≠
      some [whitePixel] := by
  have h : (detectMotion recolorState [whitePixel] 0).1.lastFrame =
      some [redPixel] := by
    norm_num [detectMotion, recolorState, initialState, highlightFrame,
      pixelLoop, pixelChanged, avgDiff, chDiff, pixelThreshold, redOf,
      onMotionDetected, changedPixels, blackPixel, whitePixel, redPixel]
  refine ⟨h, ?_⟩
  rw [h]
  simp [redPixel, whitePixel]

/-- C4 (amended): after every detection cycle that had a previous frame
stored, the stored baseline is the current input frame with each changed
pixel recoloured to pure red (alpha preserved) — in particular it equals
the input frame as supplied whenever no pixel was counted as changed — for
every input frame and regardless of the trigger decision; the `intro.js`
variant stores its recoloured frame likewise.  (The converse fails: a
changed pixel that is already pure red recolours to itself.) -/
theorem claim_C4_amended_baseline_recoloured_input :
    ∀ (s : CameraState) (prev cur : Frame) (now : ℚ),
      s.lastFrame = some prev →
      ((detectMotion s cur now).1.lastFrame =
        some ((cur.zip prev).map (fun cp =>
            if pixelChanged (pixelThreshold s.sensitivity) cp.1 cp.2
            then redOf cp.1 else cp.1) ++ cur.drop prev.length)) ∧
      (changedPixels (pixelThreshold s.sensitivity) cur prev = 0 →
        (detectMotion s cur now).1.lastFrame = some cur) ∧
      (∀ (sens : ℚ) (w h : Nat),
        (introDetect sens prev cur w h).2.1 =
          (cur.zip prev).map (fun cp =>
            if introChanged (pixelThreshold sens) cp.1 cp.2
            then redOf cp.1 else cp.1) ++ cur.drop prev.length) := by
  intro s prev cur now hF
  have hfst : (detectMotion s cur now).1.lastFrame =
      some (highlightFrame (pixelThreshold s.sensitivity) cur prev) := by
    simp [detectMotion, hF]
  refine ⟨?_, ?_, ?_⟩
  · rw [hfst]
    unfold highlightFrame
    rw [pixelLoop_frame]
  · intro h0
    rw [hfst]
    unfold highlightFrame
    rw [pixelLoop_frame]
    rw [changedPixels, pixelLoop_count, List.countP_eq_zero] at h0
    have hmap : (cur.zip prev).map (fun cp =>
        if pixelChanged (pixelThreshold s.sensitivity) cp.1 cp.2
        then redOf cp.1 else cp.1) = (cur.zip prev).map Prod.fst := by
      apply List.map_congr_left
      intro cp hcp
      have := h0 cp hcp
      simp_all
    rw [hmap, map_fst_zip_append_drop]
  · intro sens w h
    simp only [introDetect]
    rw [pixelLoop_frame]

/-- Witness: with no changed pixel (black frame against black baseline),
the stored baseline is the input frame itself. -/
theorem claim_C4_amended_baseline_recoloured_input_witness :
    changedPixels (pixelThreshold recolorState.sensitivity) [blackPixel]
      [blackPixel] = 0 ∧
    (detectMotion recolorState [blackPixel] 0).1.lastFrame =
      some [blackPixel] := by
  have h0 : changedPixels (pixelThreshold recolorState.sensitivity)
      [blackPixel] [blackPixel] = 0 := by
    norm_num [changedPixels, pixelLoop, pixelChanged, avgDiff, chDiff,
      pixelThreshold, recolorState, initialState, blackPixel]
  exact ⟨h0,
    (claim_C4_amended_baseline_recoloured_input recolorState [blackPixel]
      [blackPixel] 0 rfl).2.1 h0⟩

/-- The two-tick trace on which the recoloured baseline changes a later
decision: a white frame, then a pure-red frame one cooldown later. -/
def divergenceTicks : List TickInput :=
  [⟨true, [whitePixel], 0⟩, ⟨true, [redPixel], 6000⟩]

/-- C5 counterexample: on the two-tick trace the detector with the
recolouring writes emits one event (the red frame matches the red-stored
baseline), while the detector with the recolouring writes removed emits
two — so recolouring does affect the numeric decisions across cycles. -/
theorem claim_C5_counterexample_recolouring_changes_decisions :
    (runTicks exampleCooldownState divergenceTicks).2 = [⟨0, 100⟩] ∧
    (runTicksNR exampleCooldownState divergenceTicks).2 =
      [⟨0, 100⟩, ⟨6000, 100⟩] ∧
    (runTicks exampleCooldownState divergenceTicks).2 ≠
      (runTicksNR exampleCooldownState divergenceTicks).2 := by
  have h1 : (runTicks exampleCooldownState divergenceTicks).2 =
      [⟨0, 100⟩] := by
    norm_num [runTicks, tick, detectMotion, onMotionDetected, changedPixels,
      pixelLoop, pixelChanged, avgDiff, chDiff, pixelThreshold,
      highlightFrame, redOf, exampleCooldownState, divergenceTicks,
      initialState, blackPixel, whitePixel, redPixel]
  have h2 : (runTicksNR exampleCooldownState divergenceTicks).2 =
      [⟨0, 100⟩, ⟨6000, 100⟩] := by
    norm_num [runTicksNR, tickNR, detectMotionNR, onMotionDetected,
      changedPixels, pixelLoop, pixelChanged, avgDiff, chDiff,
      pixelThreshold, exampleCooldownState, divergenceTicks, initialState,
      blackPixel, whitePixel, redPixel]
  refine ⟨h1, h2, ?_⟩
  rw [h1, h2]
  simp

/-- C5 (amended): within a single detection cycle the recolouring has no
effect on the numeric decision — the reported percentage, the emitted
event and every state field except the stored frame agree with the
recolouring-free routine; across cycles the equivalence fails, because the
recoloured frame becomes the next baseline. -/
theorem claim_C5_amended_single_cycle_equivalence :
    ∀ (s : CameraState) (cur : Frame) (now : ℚ),
      (detectMotion s cur now).2 = (detectMotionNR s cur now).2 ∧
      { (detectMotion s cur now).1 with lastFrame := none } =
        { (detectMotionNR s cur now).1 with lastFrame := none } := by
  intro s cur now
  cases hF : s.lastFrame with
  | none => simp [detectMotion, detectMotionNR, hF]
  | some prev => simp [detectMotion, detectMotionNR, hF]

/-- The all-black 2×2 previous frame of the worked example. -/
def exampleFramePrev : Frame := [blackPixel, blackPixel, blackPixel, blackPixel]

/-- The 2×2 current frame with one pure-red pixel and three black ones. -/
def exampleFrameCur : Frame := [redPixel, blackPixel, blackPixel, blackPixel]

/-- The worked example's camera state: black 2×2 baseline, sensitivity 50,
cooldown satisfied. -/
def exampleState50 : CameraState :=
  { initialState with
      motionDetectionActive := true
      lastFrame := some exampleFramePrev
      sensitivity := 50
      lastCaptureTime := -5000 }

/-- C3 counterexample: on the 2×2 example (black baseline, one pure-red
pixel, sensitivity 50) the `app.js` detection cycle counts 0 changed
pixels — the red pixel's averaged difference is 85, below 127.5 — and
reports 0 %, not 25 %, emitting nothing. -/
theorem claim_C3_counterexample_red_pixel_not_counted :
    changedPixels (pixelThreshold 50) exampleFrameCur exampleFramePrev = 0 ∧
    (detectMotion exampleState50 exampleFrameCur 0).2.1 = some 0 ∧
    (detectMotion exampleState50 exampleFrameCur 0).2.1 ≠ some 25 ∧
    (detectMotion exampleState50 exampleFrameCur 0).2.2 = none := by
  refine ⟨?_, ?_, ?_, ?_⟩ <;>
    norm_num [detectMotion, onMotionDetected, changedPixels, pixelLoop,
      pixelChanged, avgDiff, chDiff, pixelThreshold, highlightFrame, redOf,
      exampleState50, exampleFramePrev, exampleFrameCur, initialState,
      blackPixel, redPixel]

/-- C3 (amended): the worked example holds of the `intro.js` variant,
whose unweighted channel sum 255 exceeds 127.5 — exactly 1 changed pixel,
motion percentage 25, its hardcoded 0.5 trigger firing — and 25 exceeds a
motion-area threshold of 2 but not one of 50; under `app.js`'s averaged
difference the red pixel scores 85 ≤ 127.5, so that detector counts 0
changed pixels, reports 0 %, and does not trigger at either threshold. -/
theorem claim_C3_amended_example_is_intro_variant :
    ((exampleFrameCur.zip exampleFramePrev).countP
        (fun cp => introChanged (pixelThreshold 50) cp.1 cp.2) = 1) ∧
    (introDetect 50 exampleFramePrev exampleFrameCur 2 2).1 = 25 ∧
    (introDetect 50 exampleFramePrev exampleFrameCur 2 2).2.2 = true ∧
    avgDiff redPixel blackPixel = 85 ∧
    ¬(avgDiff redPixel blackPixel > pixelThreshold 50) ∧
    ((25 : ℚ) > ({ initialState with motionThreshold := 2 }).motionThreshold) ∧
    ¬((25 : ℚ) > ({ initialState with motionThreshold := 50 }).motionThreshold) ∧
    (detectMotion { exampleState50 with motionThreshold := 50 }
      exampleFrameCur 0).2.2 = none := by
  refine ⟨?_, ?_, ?_, ?_, ?_, ?_, ?_, ?_⟩ <;>
    norm_num [detectMotion, onMotionDetected, changedPixels, pixelLoop,
      introDetect, introChanged, sumDiff, pixelChanged, avgDiff, chDiff,
      pixelThreshold, highlightFrame, redOf, exampleState50,
      exampleFramePrev, exampleFrameCur, initialState, blackPixel, redPixel]

/-- A rational of the shape `(x + y + z) / 3` is positive exactly when the
natural sum is. -/
theorem avgDiff_pos_iff (c p : Pixel) :
    0 < avgDiff c p ↔
      0 < chDiff c.r p.r + chDiff c.g p.g + chDiff c.b p.b := by
  unfold avgDiff
  rw [lt_div_iff₀ (by norm_num : (0:ℚ) < 3), zero_mul]
  exact_mod_cast Nat.cast_pos

/-- C6 counterexample: in the `intro.js` variant at sensitivity 0 the
threshold is 255, yet a white pixel against a black one has channel-sum
difference 765 and still counts as changed: its one-pixel frame pair
reports 100 %, not 0. -/
theorem claim_C6_counterexample_intro_sensitivity_zero :
    introChanged (pixelThreshold 0) whitePixel blackPixel = true ∧
    (introDetect 0 [blackPixel] [whitePixel] 1 1).1 = 100 ∧
    (introDetect 0 [blackPixel] [whitePixel] 1 1).1 ≠ 0 := by
  refine ⟨?_, ?_, ?_⟩ <;>
    norm_num [introDetect, introChanged, sumDiff, chDiff, pixelThreshold,
      pixelLoop, blackPixel, whitePixel]

/-- C6 (amended): at sensitivity 100 the threshold is 0 and, in both
variants, a pixel counts as changed exactly when some colour channel
differs; at sensitivity 0 the threshold is 255 and in the `app.js`
detector (averaged difference, at most 255 on byte pixels) no pixel ever
counts — every cycle over byte-ranged frames reports 0 % and, for a
nonnegative area threshold, emits nothing — while in the `intro.js`
variant (unweighted sum, up to 765) any pixel whose channel-sum difference
exceeds 255 still counts. -/
theorem claim_C6_amended_sensitivity_extremes :
    (∀ c p : Pixel, pixelChanged (pixelThreshold 100) c p = true ↔
      ¬(c.r = p.r ∧ c.g = p.g ∧ c.b = p.b)) ∧
    (∀ c p : Pixel, introChanged (pixelThreshold 100) c p = true ↔
      ¬(c.r = p.r ∧ c.g = p.g ∧ c.b = p.b)) ∧
    (∀ c p : Pixel, c.valid → p.valid →
      pixelChanged (pixelThreshold 0) c p = false) ∧
    (∀ (s : CameraState) (prev cur : Frame) (now : ℚ),
      s.lastFrame = some prev → s.sensitivity = 0 →
      Frame.valid cur → Frame.valid prev → 0 ≤ s.motionThreshold →
      (detectMotion s cur now).2.1 = some 0 ∧
      (detectMotion s cur now).2.2 = none) ∧
    (∀ c p : Pixel, 255 < sumDiff c p →
      introChanged (pixelThreshold 0) c p = true) := by
  have hth100 : pixelThreshold 100 = 0 := by norm_num [pixelThreshold]
  have hth0 : pixelThreshold 0 = 255 := by norm_num [pixelThreshold]
  have hchanged100 : ∀ c p : Pixel,
      (0 < chDiff c.r p.r + chDiff c.g p.g + chDiff c.b p.b) ↔
        ¬(c.r = p.r ∧ c.g = p.g ∧ c.b = p.b) := by
    intro c p
    have h1 := chDiff_eq_zero_iff c.r p.r
    have h2 := chDiff_eq_zero_iff c.g p.g
    have h3 := chDiff_eq_zero_iff c.b p.b
    omega
  have happ0 : ∀ c p : Pixel, c.valid → p.valid →
      pixelChanged (pixelThreshold 0) c p = false := by
    intro c p hc hp
    simp only [pixelChanged, hth0, decide_eq_false_iff_not]
    exact not_lt.mpr (avgDiff_le_255 hc hp)
  refine ⟨?_, ?_, happ0, ?_, ?_⟩
  · intro c p
    simp only [pixelChanged, hth100, decide_eq_true_eq, gt_iff_lt]
    rw [avgDiff_pos_iff]
    exact hchanged100 c p
  · intro c p
    simp only [introChanged, hth100, decide_eq_true_eq, gt_iff_lt, sumDiff]
    rw [show ((0:ℚ) < ((chDiff c.r p.r + chDiff c.g p.g +
        chDiff c.b p.b : Nat) : ℚ)) ↔
        0 < chDiff c.r p.r + chDiff c.g p.g + chDiff c.b p.b from
      by exact_mod_cast Nat.cast_pos]
    exact hchanged100 c p
  · intro s prev cur now hF hsens hvc hvp hthr
    have hzero : changedPixels (pixelThreshold s.sensitivity) cur prev = 0 := by
      rw [changedPixels, pixelLoop_count, List.countP_eq_zero]
      intro cp hcp
      obtain ⟨h1, h2⟩ := List.of_mem_zip hcp
      rw [hsens]
      simp [happ0 cp.1 cp.2 (hvc cp.1 h1) (hvp cp.2 h2)]
    have hpct : (changedPixels (pixelThreshold s.sensitivity) cur prev : ℚ) /
        (cur.length : ℚ) * 100 = 0 := by
      rw [hzero]
      simp
    constructor
    · simp only [detectMotion, hF]
      rw [hpct]
    · simp only [detectMotion, hF]
      rw [hpct]
      simp [not_lt.mpr hthr, onMotionDetected]
  · intro c p h
    simp only [introChanged, hth0, decide_eq_true_eq, gt_iff_lt]
    exact h

/-- A camera state at sensitivity 0 with a one-pixel white baseline. -/
def sensZeroState : CameraState :=
  { initialState with lastFrame := some [whitePixel], sensitivity := 0 }

/-- Witness: the sensitivity extremes at concrete pixels and a concrete
sensitivity-0 cycle on maximally different frames. -/
theorem claim_C6_amended_sensitivity_extremes_witness :
    pixelChanged (pixelThreshold 100) whitePixel blackPixel = true ∧
    pixelChanged (pixelThreshold 0) whitePixel blackPixel = false ∧
    (detectMotion sensZeroState [blackPixel] 0).2.1 = some 0 ∧
    (detectMotion sensZeroState [blackPixel] 0).2.2 = none ∧
    introChanged (pixelThreshold 0) whitePixel blackPixel = true := by
  have hmain := claim_C6_amended_sensitivity_extremes
  have hcycle := hmain.2.2.2.1 sensZeroState [whitePixel] [blackPixel] 0
    rfl rfl (by decide) (by decide) (by norm_num [sensZeroState, initialState])
  exact ⟨(hmain.1 whitePixel blackPixel).mpr (by decide),
    hmain.2.2.1 whitePixel blackPixel (by decide) (by decide),
    hcycle.1, hcycle.2,
    hmain.2.2.2.2 whitePixel blackPixel
      (by norm_num [sumDiff, chDiff, whitePixel, blackPixel])⟩

end MotionCamera
